import Mathlib

/-!
Verification development for the MSO5k framebuffer dumper.

The program (src/main.rs) reads one layer of a memory-mapped framebuffer:
it parses a layer argument, resolves fixed per-layer geometry, optionally
triggers a hardware printscreen, queries the active layer, switches to the
target layer, maps a memory window, switches back, and emits the window
either raw or decoded to RGBA rows.

The definitions below are a shallow embedding of that code: pixel decoding
is embedded as pure functions on byte lists; the device-facing part of
`main` is embedded as a function over an explicit device model that records
the sequence of device operations attempted (the trace) so that ordering
and restore properties can be stated.
-/

namespace Mso5k

/-- A canonical 8-bit-per-channel pixel, the decoder's output format. -/
structure Rgba where
  r : Nat
  g : Nat
  b : Nat
  a : Nat
deriving DecidableEq, Repr

/-- Read byte `i` of a mapped window (`mmap[i]` in the source). The source
indexes a `&[u8]`; the `% 256` records that every stored value is a byte. -/
def byteAt (mem : List Nat) (i : Nat) : Nat :=
  mem.getD i 0 % 256

/-- Format B (RGB565, layers other than 1) per-pixel decode of the packed
16-bit value, from src/main.rs lines 140-148:
`buf[pix*4] = ((packed & 0xf800) >> 8) as u8` and so on, with alpha 0
exactly when `packed == 0xcccc`. -/
def decodePixB (packed : Nat) : Rgba :=
  { r := ((packed &&& 0xf800) >>> 8) % 256
    g := ((packed &&& 0x7e0) >>> 3) % 256
    b := ((packed &&& 0x1f) <<< 3) % 256
    a := if packed = 0xcccc then 0 else 0xff }

/-- The byte index of the low byte of pixel `(row, pix)` in a Format B
window: `(row * width + pix) * 2` in src/main.rs lines 138-139. -/
def idxB (width row pix : Nat) : Nat :=
  (row * width + pix) * 2

/-- One Format B output row: for each pixel the packed value is assembled
as `(mmap[idx + 1] as u16) << 8 | mmap[idx] as u16` (low byte first),
src/main.rs lines 137-149. -/
def decodeRowB (mem : List Nat) (width row : Nat) : List Rgba :=
  (List.range width).map (fun pix =>
    decodePixB ((byteAt mem (idxB width row pix + 1)) <<< 8 ||| byteAt mem (idxB width row pix)))

/-- The Format B rows emitted by the loop `for row in 0..height`, in order. -/
def decodeRowsB (mem : List Nat) (width : Nat) : Nat → List Rgba
  | 0 => []
  | h + 1 => decodeRowsB mem width h ++ decodeRowB mem width h

/-- Format A (layer 1, 4 bytes/pixel) per-pixel decode, src/main.rs lines
125-132: if the first three bytes are not all `0xcc` the first and third
byte are swapped and the fourth is set to `0xff`; otherwise the four bytes
pass through unchanged. -/
def decodePixA (b0 b1 b2 b3 : Nat) : Rgba :=
  if b0 ≠ 0xcc ∨ b1 ≠ 0xcc ∨ b2 ≠ 0xcc then
    { r := b2, g := b1, b := b0, a := 0xff }
  else
    { r := b0, g := b1, b := b2, a := b3 }

/-- The Format A row slice `&mmap[row * width * 4..(row + 1) * width * 4]`
copied into the reused row buffer, src/main.rs line 123. -/
def rowSliceA (mem : List Nat) (width row : Nat) : List Nat :=
  (mem.drop (row * width * 4)).take (width * 4)

/-- One Format A output row: the row slice transformed pixel by pixel
(the in-place swap/alpha writes touch disjoint 4-byte groups, so the loop
is the per-pixel map below), src/main.rs lines 122-133. -/
def decodeRowA (mem : List Nat) (width row : Nat) : List Rgba :=
  (List.range width).map (fun pix =>
    decodePixA (byteAt (rowSliceA mem width row) (pix * 4))
      (byteAt (rowSliceA mem width row) (pix * 4 + 1))
      (byteAt (rowSliceA mem width row) (pix * 4 + 2))
      (byteAt (rowSliceA mem width row) (pix * 4 + 3)))

/-- The Format A rows emitted by the loop `for row in 0..height`, in order. -/
def decodeRowsA (mem : List Nat) (width : Nat) : Nat → List Rgba
  | 0 => []
  | h + 1 => decodeRowsA mem width h ++ decodeRowA mem width h

/-- Flatten decoded rows to the byte stream handed to the PNG writer. -/
def rgbaBytes : List Rgba → List Nat
  | [] => []
  | p :: ps => p.r :: p.g :: p.b :: p.a :: rgbaBytes ps

/-- Layer width, src/main.rs lines 64-67. -/
def widthOf (layer : Int) : Nat :=
  if layer = 1 ∨ layer = 2 then 1000 else 1024

/-- Layer height, src/main.rs lines 68-71. -/
def heightOf (layer : Int) : Nat :=
  if layer = 1 ∨ layer = 2 then 480 else 600

/-- Layer bytes per pixel, src/main.rs lines 72-75. -/
def bytes_per_pixel (layer : Int) : Nat :=
  if layer = 1 then 4 else 2

/-- `layer_len = width * height * bytes_per_pixel`, src/main.rs line 76. -/
def layer_len (layer : Int) : Nat :=
  widthOf layer * heightOf layer * bytes_per_pixel layer

/-- Decoded image for a layer: layer 1 uses Format A, every other layer
Format B (the `match layer` at src/main.rs line 121). -/
def decodeImage (layer : Int) (mem : List Nat) : List Rgba :=
  if layer = 1 then decodeRowsA mem (widthOf layer) (heightOf layer)
  else decodeRowsB mem (widthOf layer) (heightOf layer)

/-- Bytes written to the output sink: the raw window in `--raw` mode,
otherwise the decoded RGBA rows (src/main.rs lines 108-153). -/
def outputBytes (layer : Int) (mem : List Nat) (raw : Bool) : List Nat :=
  if raw then mem else rgbaBytes (decodeImage layer mem)

/-- A model of the framebuffer device as seen through the three ioctls and
the memory mapping: the currently active layer, the return codes each ioctl
would produce, whether mapping succeeds, and the bytes a successful mapping
exposes. `swapRes idx` is the ioctl return code for switching to `idx`. -/
structure Device where
  active : Int
  queryRes : Int
  swapRes : Int → Int
  psRes : Int
  psResult : Int
  mapOk : Bool
  window : List Nat

/-- One attempted device-facing operation, recorded in program order.
Switch and map events are recorded when the call is issued, whether or not
it succeeds; `output` carries the bytes written to the output sink. -/
inductive Event where
  | printscreenCall
  | noticeCrossLayer
  | queryLayer
  | switchLayer (idx : Int)
  | mapMem (len : Nat)
  | output (bytes : List Nat)
deriving DecidableEq, Repr

/-- The error kinds `main` can return, mirroring src/main.rs: a layer
argument that does not parse (line 50), a missing layer without the
printscreen flag (line 55), a layer outside 0..5 (line 60), an ioctl
returning non-zero (`IoctlError`), a printscreen ioctl that succeeded but
reported a non-zero result (line 89), and a failed memory mapping
(line 103). -/
inductive MainError where
  | parseError
  | noLayer
  | invalidLayer
  | ioctl (code : Int)
  | printscreenFailed (code : Int)
  | mapFailed
deriving DecidableEq, Repr

/-- `get_layer`, src/main.rs lines 171-182: fails with the ioctl code when
it is non-zero, otherwise yields the active layer the ioctl wrote. -/
def get_layer (d : Device) : Except MainError Int :=
  if d.queryRes ≠ 0 then Except.error (MainError.ioctl d.queryRes)
  else Except.ok d.active

/-- `swap_layer`, src/main.rs lines 184-193: fails with the ioctl code when
it is non-zero, otherwise the device's active layer becomes `idx`. -/
def swap_layer (d : Device) (idx : Int) : Except MainError Device :=
  if d.swapRes idx ≠ 0 then Except.error (MainError.ioctl (d.swapRes idx))
  else Except.ok { d with active := idx }

/-- `do_printscreen`, src/main.rs lines 195-206: fails with the ioctl code
when it is non-zero, otherwise yields the hardware-reported result. -/
def do_printscreen (d : Device) : Except MainError Int :=
  if d.psRes ≠ 0 then Except.error (MainError.ioctl d.psRes)
  else Except.ok d.psResult

/-- Layer-argument resolution, src/main.rs lines 49-58. `some (some n)` is
a layer argument that parses to `n`, `some none` one that fails to parse,
`none` an absent argument (which defaults to 4 exactly when the
printscreen flag is set). -/
def resolveLayer (layerArg : Option (Option Int)) (printscreen : Bool) :
    Except MainError Int :=
  match layerArg with
  | some (some n) => Except.ok n
  | some none => Except.error MainError.parseError
  | none =>
    if printscreen then Except.ok 4 else Except.error MainError.noLayer

/-- The capture-and-output tail of `main`, src/main.rs lines 99-155:
query the active layer, switch to the target, map `layer_len` bytes,
switch back, then write the output. Every `?` in the source becomes an
early return here; `pre` is the trace accumulated before this point.
On success the result carries the final device state. -/
def captureAndOutput (d : Device) (layer : Int) (raw : Bool)
    (pre : List Event) : Except MainError Device × List Event :=
  match get_layer d with
  | Except.error e => (Except.error e, pre ++ [Event.queryLayer])
  | Except.ok oldLayer =>
    match swap_layer d layer with
    | Except.error e =>
      (Except.error e, pre ++ [Event.queryLayer, Event.switchLayer layer])
    | Except.ok d1 =>
      if d1.mapOk then
        match swap_layer d1 oldLayer with
        | Except.error e =>
          (Except.error e,
            pre ++ [Event.queryLayer, Event.switchLayer layer,
              Event.mapMem (layer_len layer), Event.switchLayer oldLayer])
        | Except.ok d2 =>
          (Except.ok d2,
            pre ++ [Event.queryLayer, Event.switchLayer layer,
              Event.mapMem (layer_len layer), Event.switchLayer oldLayer,
              Event.output (outputBytes layer d1.window raw)])
      else
        (Except.error MainError.mapFailed,
          pre ++ [Event.queryLayer, Event.switchLayer layer,
            Event.mapMem (layer_len layer)])

/-- The device-facing behaviour of `main`, src/main.rs lines 49-157:
resolve the layer argument, validate the range, run the printscreen block
when requested (emitting the cross-layer notice when the layer differs
from 4), then capture and write the output. File plumbing (opening input
and output paths) is external I/O outside this model. -/
def mainRun (layerArg : Option (Option Int)) (printscreen raw : Bool)
    (d : Device) : Except MainError Device × List Event :=
  match resolveLayer layerArg printscreen with
  | Except.error e => (Except.error e, [])
  | Except.ok layer =>
    if layer > 5 ∨ layer < 0 then (Except.error MainError.invalidLayer, [])
    else
      if printscreen then
        match do_printscreen d with
        | Except.error e => (Except.error e, [Event.printscreenCall])
        | Except.ok res =>
          if res ≠ 0 then
            (Except.error (MainError.printscreenFailed res),
              [Event.printscreenCall])
          else
            captureAndOutput d layer raw
              (Event.printscreenCall ::
                (if layer ≠ 4 then [Event.noticeCrossLayer] else []))
      else
        captureAndOutput d layer raw []

/-- A convenient fully-successful device: active layer 2, every ioctl
returns 0, mapping succeeds over an empty window. -/
def devOk : Device :=
  { active := 2, queryRes := 0, swapRes := fun _ => 0, psRes := 0,
    psResult := 0, mapOk := true, window := [] }

/-- Like `devOk`, but the memory mapping fails. -/
def devMapFail : Device :=
  { devOk with mapOk := false }

/-- Like `devOk`, but every layer-switch ioctl returns 1. -/
def devSwapFail : Device :=
  { devOk with swapRes := fun _ => 1 }

/-- Like `devOk`, but only the switch to layer 4 succeeds: the restore
switch back to layer 2 returns 1. -/
def devRestoreFail : Device :=
  { devOk with swapRes := fun i => if i = 4 then 0 else 1 }

/-- The pixel the spec ascribes to position `(row, pix)` of a Format B
window, written from the spec's words: reconstruct a 16-bit value from two
consecutive bytes, low byte first (little-endian), then
`R8 = (packed & 0xF800) >> 8`, `G8 = (packed & 0x07E0) >> 3`,
`B8 = (packed & 0x001F) << 3`, with alpha 0 exactly for the transparency
key `0xCCCC` and 255 otherwise. -/
def specFormatBPixel (mem : List Nat) (width row pix : Nat) : Rgba :=
  let lo := byteAt mem ((row * width + pix) * 2)
  let hi := byteAt mem ((row * width + pix) * 2 + 1)
  let packed := hi * 256 + lo
  { r := (packed &&& 0xf800) >>> 8
    g := (packed &&& 0x7e0) >>> 3
    b := (packed &&& 0x1f) <<< 3
    a := if packed = 0xcccc then 0 else 255 }

lemma byteAt_lt (mem : List Nat) (i : Nat) : byteAt mem i < 256 :=
  Nat.mod_lt _ (by omega)

lemma shiftLeft_or_eq (hi lo : Nat) (hlo : lo < 256) :
    hi <<< 8 ||| lo = hi * 256 + lo := by
  rw [Nat.shiftLeft_eq, Nat.mul_comm hi]
  exact (Nat.mul_add_lt_is_or hlo hi).symm

lemma length_decodeRowB (mem : List Nat) (width row : Nat) :
    (decodeRowB mem width row).length = width := by
  simp [decodeRowB]

lemma length_decodeRowsB (mem : List Nat) (width : Nat) :
    ∀ h, (decodeRowsB mem width h).length = h * width := by
  intro h
  induction h with
  | zero => simp [decodeRowsB]
  | succ n ih =>
    simp [decodeRowsB, ih, length_decodeRowB, Nat.succ_mul]

lemma getD_decodeRowB (mem : List Nat) (width row pix : Nat)
    (hp : pix < width) (z : Rgba) :
    (decodeRowB mem width row).getD pix z =
      decodePixB ((byteAt mem (idxB width row pix + 1)) <<< 8 |||
        byteAt mem (idxB width row pix)) := by
  simp [decodeRowB, List.getD_eq_getElem?_getD, List.getElem?_map,
    List.getElem?_range hp]

lemma getD_decodeRowsB (mem : List Nat) (width : Nat) :
    ∀ h row pix, row < h → pix < width → ∀ z : Rgba,
      (decodeRowsB mem width h).getD (row * width + pix) z =
        decodePixB ((byteAt mem (idxB width row pix + 1)) <<< 8 |||
          byteAt mem (idxB width row pix)) := by
  intro h
  induction h with
  | zero => intro row pix hr; omega
  | succ n ih =>
    intro row pix hr hp z
    rcases Nat.lt_or_ge row n with h1 | h1
    · rw [decodeRowsB, List.getD_append]
      · exact ih row pix h1 hp z
      · rw [length_decodeRowsB]
        calc row * width + pix < row * width + width := by omega
          _ = (row + 1) * width := by ring
          _ ≤ n * width := Nat.mul_le_mul_right width h1
    · have hrow : row = n := by omega
      subst hrow
      rw [decodeRowsB, List.getD_append_right]
      · rw [length_decodeRowsB]
        have : row * width + pix - row * width = pix := by omega
        rw [this]
        exact getD_decodeRowB mem width row pix hp z
      · rw [length_decodeRowsB]
        omega

lemma getD_decodeRowA (mem : List Nat) (width row pix : Nat)
    (hp : pix < width) (z : Rgba) :
    (decodeRowA mem width row).getD pix z =
      decodePixA (byteAt (rowSliceA mem width row) (pix * 4))
        (byteAt (rowSliceA mem width row) (pix * 4 + 1))
        (byteAt (rowSliceA mem width row) (pix * 4 + 2))
        (byteAt (rowSliceA mem width row) (pix * 4 + 3)) := by
  simp [decodeRowA, List.getD_eq_getElem?_getD, List.getElem?_map,
    List.getElem?_range hp]

/-- Claim C2 counterexample: the packed Format B value `0xCCCC` does not
decode to RGBA `(0xC8, 0xC0, 0x18, 0)` as the claim states; the source's
masks give `(0xC8, 0x98, 0x60, 0)`. -/
theorem c2_counterexample :
    ¬ decodePixB 0xcccc = { r := 0xc8, g := 0xc0, b := 0x18, a := 0 } := by
  decide

/-- Claim C2 (amended): Format B packed `0x0000` decodes to RGBA
`(0, 0, 0, 255)`, `0xFFFF` to `(0xF8, 0xFC, 0xF8, 255)`, and `0xCCCC` to
`(0xC8, 0x98, 0x60, 0)` with alpha forced to 0. -/
theorem c2_formatB_sample_values :
    decodePixB 0x0000 = { r := 0, g := 0, b := 0, a := 255 } ∧
    decodePixB 0xffff = { r := 0xf8, g := 0xfc, b := 0xf8, a := 255 } ∧
    decodePixB 0xcccc = { r := 0xc8, g := 0x98, b := 0x60, a := 0 } := by
  decide

/-- Claim C4: in a Format A row, every pixel is decoded by the per-pixel
rule `decodePixA`; a pixel whose first three bytes are `(0xCC,0xCC,0xCC)`
passes through unchanged, original fourth byte included; any other pixel
has its first and third bytes swapped and its fourth byte set to 255; and
raw `(0x10,0x20,0x30,0x00)` decodes to `(0x30,0x20,0x10,0xFF)`. -/
theorem c4_formatA_pixel_rule :
    (∀ mem width row pix, pix < width → ∀ z : Rgba,
      (decodeRowA mem width row).getD pix z =
        decodePixA (byteAt (rowSliceA mem width row) (pix * 4))
          (byteAt (rowSliceA mem width row) (pix * 4 + 1))
          (byteAt (rowSliceA mem width row) (pix * 4 + 2))
          (byteAt (rowSliceA mem width row) (pix * 4 + 3))) ∧
    (∀ b3, decodePixA 0xcc 0xcc 0xcc b3 =
      { r := 0xcc, g := 0xcc, b := 0xcc, a := b3 }) ∧
    (∀ b0 b1 b2 b3, ¬(b0 = 0xcc ∧ b1 = 0xcc ∧ b2 = 0xcc) →
      decodePixA b0 b1 b2 b3 = { r := b2, g := b1, b := b0, a := 0xff }) ∧
    decodePixA 0x10 0x20 0x30 0x00 =
      { r := 0x30, g := 0x20, b := 0x10, a := 0xff } := by
  refine ⟨fun mem width row pix hp z => getD_decodeRowA mem width row pix hp z,
    fun b3 => by simp [decodePixA], fun b0 b1 b2 b3 hk => ?_, by decide⟩
  have : b0 ≠ 0xcc ∨ b1 ≠ 0xcc ∨ b2 ≠ 0xcc := by tauto
  simp only [decodePixA, if_pos this]

/-- Witness for C4 at concrete pixels. -/
theorem c4_formatA_pixel_rule_witness :
    (0 : Nat) < 1 ∧
    (decodeRowA [0x10, 0x20, 0x30, 0x00] 1 0).getD 0 { r := 0, g := 0, b := 0, a := 0 } =
      decodePixA (byteAt (rowSliceA [0x10, 0x20, 0x30, 0x00] 1 0) 0)
        (byteAt (rowSliceA [0x10, 0x20, 0x30, 0x00] 1 0) 1)
        (byteAt (rowSliceA [0x10, 0x20, 0x30, 0x00] 1 0) 2)
        (byteAt (rowSliceA [0x10, 0x20, 0x30, 0x00] 1 0) 3) ∧
    ¬((1 : Nat) = 0xcc ∧ (2 : Nat) = 0xcc ∧ (3 : Nat) = 0xcc) ∧
    decodePixA 1 2 3 4 = { r := 3, g := 2, b := 1, a := 0xff } :=
  ⟨by decide,
    c4_formatA_pixel_rule.1 [0x10, 0x20, 0x30, 0x00] 1 0 0 (by decide) _,
    by decide,
    c4_formatA_pixel_rule.2.2.1 1 2 3 4 (by decide)⟩

lemma decodePixB_eq_spec (mem : List Nat) (width row pix : Nat) :
    decodePixB ((byteAt mem (idxB width row pix + 1)) <<< 8 |||
        byteAt mem (idxB width row pix)) =
      specFormatBPixel mem width row pix := by
  rw [shiftLeft_or_eq _ _ (byteAt_lt mem (idxB width row pix))]
  have hpacked :
      byteAt mem (idxB width row pix + 1) * 256 + byteAt mem (idxB width row pix) <
        65536 := by
    have h1 := byteAt_lt mem (idxB width row pix + 1)
    have h2 := byteAt_lt mem (idxB width row pix)
    omega
  unfold decodePixB specFormatBPixel idxB
  have hr : ∀ p : Nat, p &&& 0xf800 ≤ 0xf800 := fun p => Nat.and_le_right
  have hg : ∀ p : Nat, p &&& 0x7e0 ≤ 0x7e0 := fun p => Nat.and_le_right
  have hb : ∀ p : Nat, p &&& 0x1f ≤ 0x1f := fun p => Nat.and_le_right
  refine Rgba.mk.injEq .. ▸ ⟨?_, ?_, ?_, rfl⟩
  · exact Nat.mod_eq_of_lt (by
      have := hr (byteAt mem ((row * width + pix) * 2 + 1) * 256 +
        byteAt mem ((row * width + pix) * 2))
      omega)
  · exact Nat.mod_eq_of_lt (by
      have := hg (byteAt mem ((row * width + pix) * 2 + 1) * 256 +
        byteAt mem ((row * width + pix) * 2))
      omega)
  · exact Nat.mod_eq_of_lt (by
      have := hb (byteAt mem ((row * width + pix) * 2 + 1) * 256 +
        byteAt mem ((row * width + pix) * 2))
      omega)

/-- Claim C3: every pixel `(row, pix)` of a decoded Format B window equals
the spec's formula: the packed value is assembled little-endian (low byte
first), `R = (packed & 0xF800) >> 8`, `G = (packed & 0x07E0) >> 3`,
`B = (packed & 0x001F) << 3`, and alpha is 0 exactly when
`packed = 0xCCCC`, else 255. -/
theorem c3_formatB_pixel_formula (mem : List Nat) (width height row pix : Nat)
    (hr : row < height) (hp : pix < width) :
    (decodeRowsB mem width height).getD (row * width + pix)
        { r := 0, g := 0, b := 0, a := 0 } =
      specFormatBPixel mem width row pix := by
  rw [getD_decodeRowsB mem width height row pix hr hp]
  exact decodePixB_eq_spec mem width row pix

/-- Witness for C3 on a concrete 2x1 window. -/
theorem c3_formatB_pixel_formula_witness :
    (0 : Nat) < 1 ∧ (1 : Nat) < 2 ∧
    (decodeRowsB [0x01, 0x02, 0xcc, 0xcc] 2 1).getD 1
        { r := 0, g := 0, b := 0, a := 0 } =
      specFormatBPixel [0x01, 0x02, 0xcc, 0xcc] 2 0 1 :=
  ⟨by decide, by decide,
    c3_formatB_pixel_formula [0x01, 0x02, 0xcc, 0xcc] 2 1 0 1 (by decide)
      (by decide)⟩

/-- Claim C9: for a window of exactly `width * height * bytesPerPixel`
bytes, every byte index the decoder reads stays in bounds: in Format B the
high byte of pixel `(row, pix)` sits at `idxB + 1 < window length`; in
Format A the row slice copied into the reused buffer has length exactly
`width * 4` (matching the buffer) and every in-row byte offset `pix*4 + 3`
is below `width * 4`. -/
theorem c9_decoder_in_bounds (width height row pix : Nat)
    (hr : row < height) (hp : pix < width) :
    (∀ mem : List Nat, mem.length = width * height * 2 →
      idxB width row pix + 1 < mem.length) ∧
    (∀ mem : List Nat, mem.length = width * height * 4 →
      (rowSliceA mem width row).length = width * 4) ∧
    pix * 4 + 3 < width * 4 := by
  have hidx : row * width + pix < height * width :=
    calc row * width + pix < row * width + width := by omega
      _ = (row + 1) * width := by ring
      _ ≤ height * width := Nat.mul_le_mul_right width hr
  refine ⟨fun mem hlen => ?_, fun mem hlen => ?_, by omega⟩
  · rw [hlen]
    unfold idxB
    have : width * height * 2 = height * width * 2 := by ring
    rw [this]
    omega
  · unfold rowSliceA
    rw [List.length_take, List.length_drop, hlen]
    have h1 : row * width * 4 + width * 4 ≤ width * height * 4 :=
      calc row * width * 4 + width * 4 = (row * width + width) * 4 := by ring
        _ = ((row + 1) * width) * 4 := by ring
        _ ≤ (height * width) * 4 :=
          Nat.mul_le_mul_right 4 (Nat.mul_le_mul_right width hr)
        _ = width * height * 4 := by ring
    omega

/-- Witness for C9 at a concrete geometry. -/
theorem c9_decoder_in_bounds_witness :
    (0 : Nat) < 1 ∧ (1 : Nat) < 2 ∧
    ((∀ mem : List Nat, mem.length = 2 * 1 * 2 → idxB 2 0 1 + 1 < mem.length) ∧
      (∀ mem : List Nat, mem.length = 2 * 1 * 4 →
        (rowSliceA mem 2 0).length = 2 * 4) ∧
      1 * 4 + 3 < 2 * 4) :=
  ⟨by decide, by decide, c9_decoder_in_bounds 2 1 0 1 (by decide) (by decide)⟩

/-- The active layer the device is left in when the run succeeds, `none`
when the run fails. -/
def finalActive (r : Except MainError Device × List Event) : Option Int :=
  match r.1 with
  | Except.ok d => some d.active
  | Except.error _ => none

/-- Claim C1 counterexample: on a device whose mapping fails after the
switch to layer 4 succeeded (original layer 2), the program issues no
restore switch at all — the trace ends at the failed mapping and contains
no switch back to layer 2 — contradicting the claim that a restore is
still attempted. -/
theorem c1_counterexample :
    mainRun (some (some 4)) false false devMapFail =
      (Except.error MainError.mapFailed,
        [Event.queryLayer, Event.switchLayer 4, Event.mapMem (layer_len 4)]) ∧
    Event.switchLayer 2 ∉ (mainRun (some (some 4)) false false devMapFail).2 := by
  constructor
  · rfl
  · decide

/-- Claim C1 (amended): if the memory-window mapping fails after the
active layer was successfully switched to the target, the program does
NOT attempt to restore the original layer: it propagates the mapping
error immediately, the trace being exactly the query, the switch to the
target, and the failed mapping — every switch issued targets the capture
layer. -/
theorem c1_no_restore_on_map_failure (d : Device) (L : Int) (raw : Bool)
    (hL : ¬(L > 5 ∨ L < 0)) (hq : d.queryRes = 0) (hs : d.swapRes L = 0)
    (hm : d.mapOk = false) :
    mainRun (some (some L)) false raw d =
      (Except.error MainError.mapFailed,
        [Event.queryLayer, Event.switchLayer L, Event.mapMem (layer_len L)]) ∧
    ∀ i : Int, Event.switchLayer i ∈ (mainRun (some (some L)) false raw d).2 →
      i = L := by
  have hmain : mainRun (some (some L)) false raw d =
      (Except.error MainError.mapFailed,
        [Event.queryLayer, Event.switchLayer L, Event.mapMem (layer_len L)]) := by
    simp [mainRun, resolveLayer, captureAndOutput, get_layer, swap_layer,
      hq, hs, hm, hL]
  refine ⟨hmain, fun i hi => ?_⟩
  rw [hmain] at hi
  simpa using hi

/-- Witness for C1 (amended) on the concrete failing-map device. -/
theorem c1_no_restore_on_map_failure_witness :
    mainRun (some (some 4)) false true devMapFail =
      (Except.error MainError.mapFailed,
        [Event.queryLayer, Event.switchLayer 4, Event.mapMem (layer_len 4)]) ∧
    ∀ i : Int,
      Event.switchLayer i ∈ (mainRun (some (some 4)) false true devMapFail).2 →
        i = 4 :=
  c1_no_restore_on_map_failure devMapFail 4 true (by decide) rfl rfl rfl

/-- Claim C5: when the layer query, both switches and the mapping all
succeed, the device ends in the layer it started in. -/
theorem c5_layer_restored_on_success (d : Device) (L : Int) (raw : Bool)
    (hL : ¬(L > 5 ∨ L < 0)) (hq : d.queryRes = 0) (hsT : d.swapRes L = 0)
    (hm : d.mapOk = true) (hsO : d.swapRes d.active = 0) :
    finalActive (mainRun (some (some L)) false raw d) = some d.active := by
  simp [mainRun, resolveLayer, captureAndOutput, get_layer, swap_layer,
    finalActive, hq, hsT, hm, hsO, hL]

/-- Witness for C5: original layer 2, target layer 4, run ends at layer 2. -/
theorem c5_layer_restored_on_success_witness :
    finalActive (mainRun (some (some 4)) false false devOk) = some 2 :=
  c5_layer_restored_on_success devOk 4 false (by decide) rfl rfl rfl rfl

/-- Claim C6: the fixed geometry table — layers 1 and 2 are 1000x480, all
other layers 1024x600; layer 1 has 4 bytes per pixel, all others 2 — and a
layer outside 0..5 or an unparsable one fails (invalid-layer / parse
error, the spec's `InvalidLayer` class) with an empty trace, i.e. before
any device operation. -/
theorem c6_geometry_and_validation :
    (widthOf 0 = 1024 ∧ heightOf 0 = 600 ∧ bytes_per_pixel 0 = 2) ∧
    (widthOf 1 = 1000 ∧ heightOf 1 = 480 ∧ bytes_per_pixel 1 = 4) ∧
    (widthOf 2 = 1000 ∧ heightOf 2 = 480 ∧ bytes_per_pixel 2 = 2) ∧
    (widthOf 3 = 1024 ∧ heightOf 3 = 600 ∧ bytes_per_pixel 3 = 2) ∧
    (widthOf 4 = 1024 ∧ heightOf 4 = 600 ∧ bytes_per_pixel 4 = 2) ∧
    (widthOf 5 = 1024 ∧ heightOf 5 = 600 ∧ bytes_per_pixel 5 = 2) ∧
    (∀ (n : Int) (ps raw : Bool) (d : Device), n > 5 ∨ n < 0 →
      mainRun (some (some n)) ps raw d =
        (Except.error MainError.invalidLayer, [])) ∧
    (∀ (ps raw : Bool) (d : Device),
      mainRun (some none) ps raw d = (Except.error MainError.parseError, [])) := by
  refine ⟨by decide, by decide, by decide, by decide, by decide, by decide,
    fun n ps raw d hn => ?_, fun ps raw d => ?_⟩
  · simp [mainRun, resolveLayer, hn]
  · simp [mainRun, resolveLayer]

/-- Witness for C6: layer 7 is rejected with no device operation. -/
theorem c6_geometry_and_validation_witness :
    ((7 : Int) > 5 ∨ (7 : Int) < 0) ∧
    mainRun (some (some 7)) true false devOk =
      (Except.error MainError.invalidLayer, []) :=
  ⟨by decide,
    c6_geometry_and_validation.2.2.2.2.2.2.1 7 true false devOk (by decide)⟩

/-- Claim C7: when the switch to the target layer fails, that ioctl error
is propagated, no memory is mapped and no restore switch is attempted —
the trace is exactly the query followed by the failed switch. -/
theorem c7_switch_failure_propagates (d : Device) (L : Int) (raw : Bool)
    (hL : ¬(L > 5 ∨ L < 0)) (hq : d.queryRes = 0) (hs : d.swapRes L ≠ 0) :
    mainRun (some (some L)) false raw d =
      (Except.error (MainError.ioctl (d.swapRes L)),
        [Event.queryLayer, Event.switchLayer L]) ∧
    (∀ n, Event.mapMem n ∉ (mainRun (some (some L)) false raw d).2) ∧
    (∀ i : Int, Event.switchLayer i ∈ (mainRun (some (some L)) false raw d).2 →
      i = L) := by
  have hmain : mainRun (some (some L)) false raw d =
      (Except.error (MainError.ioctl (d.swapRes L)),
        [Event.queryLayer, Event.switchLayer L]) := by
    simp [mainRun, resolveLayer, captureAndOutput, get_layer, swap_layer,
      hq, hs, hL]
  refine ⟨hmain, fun n => ?_, fun i hi => ?_⟩
  · rw [hmain]
    simp
  · rw [hmain] at hi
    simpa using hi

/-- Witness for C7 on the concrete failing-switch device. -/
theorem c7_switch_failure_propagates_witness :
    mainRun (some (some 3)) false false devSwapFail =
      (Except.error (MainError.ioctl 1),
        [Event.queryLayer, Event.switchLayer 3]) ∧
    (∀ n, Event.mapMem n ∉ (mainRun (some (some 3)) false false devSwapFail).2) ∧
    (∀ i : Int,
      Event.switchLayer i ∈ (mainRun (some (some 3)) false false devSwapFail).2 →
        i = 3) :=
  c7_switch_failure_propagates devSwapFail 3 false (by decide) rfl (by decide)

/-- Claim C8: with the printscreen flag and no layer argument the target
layer resolves to 4; with the printscreen flag and an explicit valid layer
other than 4 the cross-layer notice is emitted and the capture still runs
at that layer (the switch to it is issued and the run succeeds); with
neither the flag nor a layer argument the run fails. -/
theorem c8_screenshot_layer_resolution :
    resolveLayer none true = Except.ok 4 ∧
    (∀ (L : Int) (raw : Bool) (d : Device),
      ¬(L > 5 ∨ L < 0) → L ≠ 4 → d.psRes = 0 → d.psResult = 0 →
      d.queryRes = 0 → d.swapRes L = 0 → d.mapOk = true →
      d.swapRes d.active = 0 →
      Event.noticeCrossLayer ∈ (mainRun (some (some L)) true raw d).2 ∧
      Event.switchLayer L ∈ (mainRun (some (some L)) true raw d).2 ∧
      finalActive (mainRun (some (some L)) true raw d) = some d.active) ∧
    (∀ (raw : Bool) (d : Device),
      mainRun none false raw d = (Except.error MainError.noLayer, [])) := by
  refine ⟨rfl, fun L raw d hL h4 hps hpr hq hs hm hso => ?_,
    fun raw d => by simp [mainRun, resolveLayer]⟩
  simp [mainRun, resolveLayer, captureAndOutput, do_printscreen, get_layer,
    swap_layer, finalActive, hL, h4, hps, hpr, hq, hs, hm, hso]

/-- Witness for C8: printscreen with explicit layer 2 on a fully
successful device. -/
theorem c8_screenshot_layer_resolution_witness :
    Event.noticeCrossLayer ∈ (mainRun (some (some 2)) true false devOk).2 ∧
    Event.switchLayer 2 ∈ (mainRun (some (some 2)) true false devOk).2 ∧
    finalActive (mainRun (some (some 2)) true false devOk) = some 2 :=
  c8_screenshot_layer_resolution.2.1 2 false devOk (by decide) (by decide)
    rfl rfl rfl rfl rfl rfl

/-- Claim C10: when the mapping succeeds but the restore switch back to
the original layer fails, the run ends with that switch's ioctl error and
no output bytes are ever emitted — no output event occurs in the trace. -/
theorem c10_no_output_on_restore_failure (d : Device) (L : Int) (raw : Bool)
    (hL : ¬(L > 5 ∨ L < 0)) (hq : d.queryRes = 0) (hsT : d.swapRes L = 0)
    (hm : d.mapOk = true) (hsO : d.swapRes d.active ≠ 0) :
    mainRun (some (some L)) false raw d =
      (Except.error (MainError.ioctl (d.swapRes d.active)),
        [Event.queryLayer, Event.switchLayer L, Event.mapMem (layer_len L),
          Event.switchLayer d.active]) ∧
    ∀ bs, Event.output bs ∉ (mainRun (some (some L)) false raw d).2 := by
  have hmain : mainRun (some (some L)) false raw d =
      (Except.error (MainError.ioctl (d.swapRes d.active)),
        [Event.queryLayer, Event.switchLayer L, Event.mapMem (layer_len L),
          Event.switchLayer d.active]) := by
    simp [mainRun, resolveLayer, captureAndOutput, get_layer, swap_layer,
      hq, hsT, hm, hsO, hL]
  refine ⟨hmain, fun bs => ?_⟩
  rw [hmain]
  simp

/-- Witness for C10 on the concrete restore-failing device. -/
theorem c10_no_output_on_restore_failure_witness :
    mainRun (some (some 4)) false true devRestoreFail =
      (Except.error (MainError.ioctl 1),
        [Event.queryLayer, Event.switchLayer 4, Event.mapMem (layer_len 4),
          Event.switchLayer 2]) ∧
    ∀ bs, Event.output bs ∉ (mainRun (some (some 4)) false true devRestoreFail).2 :=
  c10_no_output_on_restore_failure devRestoreFail 4 true (by decide) rfl rfl
    rfl (by decide)

end Mso5k
